import Mathlib

/-!
Shallow embedding of `ticket_bot.py`: the per-cycle body of
`TicketBot.check_ticket`, the `reset` command, the operating-hours gate and
the response-decoding step, together with proofs of the specified
properties.  Python strings are modelled as Lean `String`; Python slicing
`s[:n]` is modelled as taking the first `n` characters; the BeautifulSoup
layer is abstracted as a list of date containers, each carrying the text of
its day tag and month tag (when found) and the href of an enclosing link
(when found).
-/

namespace TicketBot

/-- Python `s[:n]`: the first `n` characters of `s`. -/
def pytrunc (s : String) (n : Nat) : String := ⟨s.data.take n⟩

/-- Python `s.lower()`: lowercase every character. -/
def pylower (s : String) : String := ⟨s.data.map Char.toLower⟩

/-- Python `s.upper()`: uppercase every character. -/
def pyupper (s : String) : String := ⟨s.data.map Char.toUpper⟩

/-- Python `s.strip()` (also BeautifulSoup `get_text(strip=True)`): drop
leading and trailing whitespace. -/
def pystrip (s : String) : String :=
  ⟨((s.data.dropWhile Char.isWhitespace).reverse.dropWhile Char.isWhitespace).reverse⟩

/-- Configuration, as stored by `TicketBot.__init__`: the constructor
lowercases `target_day` and `target_month` before storing them. -/
structure Cfg where
  target_day : String
  target_month : String
deriving DecidableEq, Repr

/-- `TicketBot.__init__` applied to raw configuration strings: the target
day and month are lowercased at construction time. -/
def mkCfg (target_day target_month : String) : Cfg :=
  { target_day := pylower target_day, target_month := pylower target_month }

/-- The mutable announcement state of the bot: `already_announced`,
`previous_event_summaries` (the previous digest) and `check_count`.
`start_time` is set once and never mutated, so it is omitted. -/
structure BotState where
  already_announced : Bool
  previous_event_summaries : List String
  check_count : Nat
deriving DecidableEq, Repr

/-- The state as initialised by `TicketBot.__init__`. -/
def initState : BotState :=
  { already_announced := false, previous_event_summaries := [], check_count := 0 }

/-- `TicketBot.is_within_operating_hours`, as a function of the current
hour-of-day in the fixed timezone: `8 <= current_hour < 24`. -/
def is_within_operating_hours (current_hour : Nat) : Bool :=
  8 ≤ current_hour && current_hour < 24

/-- The `reset` command: sets `already_announced` to `False`. -/
def reset (s : BotState) : BotState := { s with already_announced := false }

/-- One parsed date container: the stripped text of the first day tag and
month tag found inside it (when present), and the href of an enclosing
link element (when present). -/
structure Container where
  day_tag : Option String
  month_tag : Option String
  link_href : Option String
deriving DecidableEq, Repr

/-- An outbound chat message: an availability alert or a digest update. -/
inductive Msg where
  | alert (text : String)
  | digest (text : String)
deriving DecidableEq, Repr

/-- Whether a message is an availability alert. -/
def Msg.isAlert : Msg → Bool
  | .alert _ => true
  | .digest _ => false

/-- Whether a message is a digest update. -/
def Msg.isDigest : Msg → Bool
  | .alert _ => false
  | .digest _ => true

/-- The text carried by a message. -/
def Msg.text : Msg → String
  | .alert t => t
  | .digest t => t

/-- Number of alert messages in an outbound list. -/
def alertCount (ms : List Msg) : Nat := ms.countP fun m => Msg.isAlert m

/-- Number of digest messages in an outbound list. -/
def digestCount (ms : List Msg) : Nat := ms.countP fun m => Msg.isDigest m

/-- The navigation URL of a container: the enclosing link href prefixed
with the site root, or the sentinel `"No link"`. -/
def containerUrl : Option String → String
  | some href => "https://ticketline.sapo.pt" ++ href
  | none => "No link"

/-- The per-entry digest line built in the extraction loop. -/
def eventSummary (day month url : String) : String :=
  "📅 " ++ pyupper day ++ " " ++ pyupper month ++ " — " ++ url

/-- The alert message body sent when the target date is first found. -/
def alertText (cfg : Cfg) (url : String) : String :=
  "🚨 Tickets for **" ++ pyupper cfg.target_month ++ " " ++ cfg.target_day ++
    "** are now available! @here\n" ++ url

/-- The digest message body. -/
def digestText (event_summaries : List String) : String :=
  "**Current Ticket Dates:**\n" ++ String.intercalate "\n" event_summaries

/-- The sentinel digest line used when no entries were extracted. -/
def noSessions : String := "*(No ticket sessions found)*"

/-- The state threaded through the `for container in date_containers` loop:
the accumulated `event_summaries`, the messages sent so far this cycle, the
`already_announced` flag and the `found` flag. -/
structure LoopState where
  event_summaries : List String
  msgs : List Msg
  already_announced : Bool
  found : Bool
deriving DecidableEq, Repr

/-- The body of the `for container in date_containers` loop: skip the
container when the day tag or the month tag is missing; otherwise append a
summary line, and when the lowercased day and month equal the target, set
`found` and, when not yet announced and the channel resolves, send the
alert (truncated to 2000 characters) and set `already_announced`. -/
def stepContainer (cfg : Cfg) (channel : Bool) (st : LoopState) (c : Container) : LoopState :=
  match c.day_tag, c.month_tag with
  | some dt, some mt =>
    let day := pylower (pystrip dt)
    let month := pylower (pystrip mt)
    let url := containerUrl c.link_href
    let st1 := { st with event_summaries := st.event_summaries ++ [eventSummary day month url] }
    if day = cfg.target_day ∧ month = cfg.target_month then
      let st2 := { st1 with found := true }
      if st2.already_announced then st2
      else if channel then
        { st2 with msgs := st2.msgs ++ [Msg.alert (pytrunc (alertText cfg url) 2000)],
                   already_announced := true }
      else st2
    else st1
  | _, _ => st

/-- The whole container loop, folded over the containers in document
order. -/
def runContainers (cfg : Cfg) (channel : Bool) (st : LoopState) (cs : List Container) : LoopState :=
  cs.foldl (stepContainer cfg channel) st

/-- One extracted event entry, per the Event Extractor contract. -/
structure EventEntry where
  day : String
  month : String
  url : String
deriving DecidableEq, Repr

/-- The entry a single container contributes: `none` when the day tag or
the month tag is missing, otherwise the lowercased stripped day and month
text and the container URL. -/
def extractEntry (c : Container) : Option EventEntry :=
  match c.day_tag, c.month_tag with
  | some dt, some mt => some ⟨pylower (pystrip dt), pylower (pystrip mt), containerUrl c.link_href⟩
  | _, _ => none

/-- The full extraction result, in document order, with no
deduplication. -/
def extractEntries (cs : List Container) : List EventEntry :=
  cs.filterMap extractEntry

/-- The digest line of one extracted entry. -/
def summaryOfEntry (e : EventEntry) : String := eventSummary e.day e.month e.url

/-- Whether a container matches the configured target day and month. -/
def isTargetMatch (cfg : Cfg) (c : Container) : Bool :=
  match c.day_tag, c.month_tag with
  | some dt, some mt => decide (pylower (pystrip dt) = cfg.target_day ∧ pylower (pystrip mt) = cfg.target_month)
  | _, _ => false

/-- The digest computed from a cycle: the summary lines of the extracted
entries, or the sentinel line when none were extracted. -/
def computedDigest (cs : List Container) : List String :=
  let ss := (extractEntries cs).map summaryOfEntry
  if ss.isEmpty then [noSessions] else ss

/-- What one iteration of the scrape loop observes: the operating-hours
gate closed, a fetch/parse failure raised inside the `try` block, or a
successfully fetched and parsed page yielding its date containers. -/
inductive CycleInput where
  | closedHours
  | fetchErr
  | page (date_containers : List Container)
deriving DecidableEq, Repr

/-- One iteration of `TicketBot.check_ticket`: when the gate is closed,
only log and sleep; otherwise increment `check_count` and run the guarded
body, which on failure only logs, and on success runs the container loop,
appends the sentinel when no summaries were collected, and sends a digest
(when the channel resolves) and stores the new digest whenever it differs
from the previous one.  `channel` tells whether `client.get_channel`
resolves this cycle.  Returns the new state and the messages sent. -/
def check_ticket_cycle (cfg : Cfg) (channel : Bool) (s : BotState) (inp : CycleInput) :
    BotState × List Msg :=
  match inp with
  | .closedHours => (s, [])
  | .fetchErr => ({ s with check_count := s.check_count + 1 }, [])
  | .page cs =>
    let st := runContainers cfg channel
      { event_summaries := [], msgs := [], already_announced := s.already_announced,
        found := false } cs
    let event_summaries := if st.event_summaries.isEmpty then [noSessions] else st.event_summaries
    if event_summaries = s.previous_event_summaries then
      ({ already_announced := st.already_announced,
         previous_event_summaries := s.previous_event_summaries,
         check_count := s.check_count + 1 }, st.msgs)
    else
      ({ already_announced := st.already_announced,
         previous_event_summaries := event_summaries,
         check_count := s.check_count + 1 },
       st.msgs ++ if channel then [Msg.digest (pytrunc (digestText event_summaries) 2000)] else [])

/-- A sequence of scrape iterations; each pair gives whether the channel
resolves that cycle and what the cycle observes. -/
def runCycles (cfg : Cfg) : BotState → List (Bool × CycleInput) → BotState × List Msg
  | s, [] => (s, [])
  | s, (ch, inp) :: rest =>
    let r := check_ticket_cycle cfg ch s inp
    let r2 := runCycles cfg r.1 rest
    (r2.1, r.2 ++ r2.2)

/-- An HTTP response: its raw body bytes and its text as decoded by the
transport using the declared encoding. -/
structure HttpResponse where
  content : List Nat
  text : String
deriving DecidableEq, Repr

/-- The gzip magic number bytes. -/
def gzipMagic : List Nat := [0x1f, 0x8b]

/-- The body-decoding step of the fetch: gzip-decompress and decode as
UTF-8 when the body starts with the gzip magic bytes, otherwise use the
transport-decoded text.  The gzip decompressor itself is an external
collaborator, passed as `gunzipUtf8`. -/
def decodeBody (gunzipUtf8 : List Nat → String) (r : HttpResponse) : String :=
  if gzipMagic.isPrefixOf r.content then gunzipUtf8 r.content else r.text

/-! ### Helper lemmas about the container loop -/

theorem pytrunc_length_le (s : String) (n : Nat) : (pytrunc s n).length ≤ n := by
  show (s.data.take n).length ≤ n
  rw [List.length_take]
  exact Nat.min_le_left _ _

theorem alertCount_append (xs ys : List Msg) :
    alertCount (xs ++ ys) = alertCount xs + alertCount ys := by
  simp [alertCount, List.countP_append]

theorem digestCount_append (xs ys : List Msg) :
    digestCount (xs ++ ys) = digestCount xs + digestCount ys := by
  simp [digestCount, List.countP_append]

theorem alertCount_nil : alertCount [] = 0 := rfl

theorem digestCount_nil : digestCount [] = 0 := rfl

theorem alertCount_alert (t : String) : alertCount [Msg.alert t] = 1 := rfl

theorem alertCount_digest (t : String) : alertCount [Msg.digest t] = 0 := rfl

theorem digestCount_alert (t : String) : digestCount [Msg.alert t] = 0 := rfl

theorem digestCount_digest (t : String) : digestCount [Msg.digest t] = 1 := rfl

/-- Restatement of the loop body through `extractEntry`, convenient for
case analysis. -/
def stepSpec (cfg : Cfg) (ch : Bool) (st : LoopState) (c : Container) : LoopState :=
  match extractEntry c with
  | none => st
  | some e =>
    let hit := decide (e.day = cfg.target_day ∧ e.month = cfg.target_month)
    { event_summaries := st.event_summaries ++ [summaryOfEntry e],
      msgs := if (!st.already_announced && (ch && hit)) = true
              then st.msgs ++ [Msg.alert (pytrunc (alertText cfg e.url) 2000)]
              else st.msgs,
      already_announced := st.already_announced || (ch && hit),
      found := st.found || hit }

theorem stepContainer_eq_spec (cfg : Cfg) (ch : Bool) (st : LoopState) (c : Container) :
    stepContainer cfg ch st c = stepSpec cfg ch st c := by
  rcases hd : c.day_tag with _ | dt <;> rcases hm : c.month_tag with _ | mt <;>
    simp only [stepContainer, stepSpec, extractEntry, hd, hm]
  by_cases hc : pylower (pystrip dt) = cfg.target_day ∧ pylower (pystrip mt) = cfg.target_month
  · rw [if_pos hc, decide_eq_true hc]
    cases ha : st.already_announced <;> cases hch : ch <;>
      simp [ha, hch, summaryOfEntry]
  · rw [if_neg hc, decide_eq_false hc]
    simp [summaryOfEntry]

theorem isTargetMatch_extractEntry (cfg : Cfg) (c : Container) :
    isTargetMatch cfg c =
      (match extractEntry c with
       | some e => decide (e.day = cfg.target_day ∧ e.month = cfg.target_month)
       | none => false) := by
  rcases hd : c.day_tag with _ | dt <;> rcases hm : c.month_tag with _ | mt <;>
    simp [isTargetMatch, extractEntry, hd, hm]

theorem stepContainer_summaries (cfg : Cfg) (ch : Bool) (st : LoopState) (c : Container) :
    (stepContainer cfg ch st c).event_summaries
      = st.event_summaries ++ (extractEntries [c]).map summaryOfEntry := by
  rw [stepContainer_eq_spec, stepSpec]
  rcases hE : extractEntry c with _ | e <;> simp [extractEntries, hE]

theorem stepContainer_announced_true (cfg : Cfg) (ch : Bool) (st : LoopState) (c : Container)
    (h : st.already_announced = true) :
    (stepContainer cfg ch st c).msgs = st.msgs ∧
    (stepContainer cfg ch st c).already_announced = true := by
  rw [stepContainer_eq_spec, stepSpec]
  rcases hE : extractEntry c with _ | e
  · exact ⟨rfl, h⟩
  · simp [h]

theorem stepContainer_channel_false (cfg : Cfg) (st : LoopState) (c : Container) :
    (stepContainer cfg false st c).msgs = st.msgs ∧
    (stepContainer cfg false st c).already_announced = st.already_announced := by
  rw [stepContainer_eq_spec, stepSpec]
  rcases hE : extractEntry c with _ | e
  · exact ⟨rfl, rfl⟩
  · simp

theorem stepContainer_channel_true (cfg : Cfg) (st : LoopState) (c : Container) :
    (stepContainer cfg true st c).already_announced
        = (st.already_announced || isTargetMatch cfg c) ∧
    alertCount (stepContainer cfg true st c).msgs
        = alertCount st.msgs + (!st.already_announced && isTargetMatch cfg c).toNat := by
  rw [stepContainer_eq_spec, stepSpec, isTargetMatch_extractEntry]
  rcases hE : extractEntry c with _ | e
  · simp
  · cases ha : st.already_announced <;>
      cases hhit : decide (e.day = cfg.target_day ∧ e.month = cfg.target_month) <;>
        simp [ha, hhit, alertCount_append, alertCount_alert]

theorem stepContainer_digestCount (cfg : Cfg) (ch : Bool) (st : LoopState) (c : Container) :
    digestCount (stepContainer cfg ch st c).msgs = digestCount st.msgs := by
  rw [stepContainer_eq_spec, stepSpec]
  rcases hE : extractEntry c with _ | e
  · rfl
  · dsimp only
    split
    · rw [digestCount_append, digestCount_alert]
      exact Nat.add_zero _
    · rfl

theorem stepContainer_msgs_ok (cfg : Cfg) (ch : Bool) (st : LoopState) (c : Container)
    (h : ∀ m ∈ st.msgs, (Msg.text m).length ≤ 2000) :
    ∀ m ∈ (stepContainer cfg ch st c).msgs, (Msg.text m).length ≤ 2000 := by
  rw [stepContainer_eq_spec, stepSpec]
  rcases hE : extractEntry c with _ | e
  · exact h
  · dsimp only
    split
    · intro m hm2
      rcases List.mem_append.1 hm2 with h1 | h1
      · exact h m h1
      · rcases List.mem_singleton.1 h1 with rfl
        exact pytrunc_length_le _ _
    · exact h

theorem runContainers_summaries (cfg : Cfg) (ch : Bool) (cs : List Container) (st : LoopState) :
    (runContainers cfg ch st cs).event_summaries
      = st.event_summaries ++ (extractEntries cs).map summaryOfEntry := by
  induction cs generalizing st with
  | nil => simp [runContainers, extractEntries]
  | cons c cs ih =>
    have hstep := stepContainer_summaries cfg ch st c
    have h2 : extractEntries (c :: cs) = extractEntries [c] ++ extractEntries cs := by
      simp [extractEntries, List.filterMap_cons]
      rcases extractEntry c with _ | e <;> simp
    rw [runContainers] at *
    rw [List.foldl_cons, ← runContainers, ih, hstep, h2]
    simp

theorem runContainers_announced_true (cfg : Cfg) (ch : Bool) (cs : List Container)
    (st : LoopState) (h : st.already_announced = true) :
    (runContainers cfg ch st cs).msgs = st.msgs ∧
    (runContainers cfg ch st cs).already_announced = true := by
  induction cs generalizing st with
  | nil => exact ⟨rfl, h⟩
  | cons c cs ih =>
    have hstep := stepContainer_announced_true cfg ch st c h
    have h2 := ih (stepContainer cfg ch st c) hstep.2
    rw [runContainers, List.foldl_cons, ← runContainers]
    exact ⟨h2.1.trans hstep.1, h2.2⟩

theorem runContainers_channel_false (cfg : Cfg) (cs : List Container) (st : LoopState) :
    (runContainers cfg false st cs).msgs = st.msgs ∧
    (runContainers cfg false st cs).already_announced = st.already_announced := by
  induction cs generalizing st with
  | nil => exact ⟨rfl, rfl⟩
  | cons c cs ih =>
    have hstep := stepContainer_channel_false cfg st c
    have h2 := ih (stepContainer cfg false st c)
    rw [runContainers, List.foldl_cons, ← runContainers]
    exact ⟨h2.1.trans hstep.1, h2.2.trans hstep.2⟩

theorem runContainers_channel_true (cfg : Cfg) (cs : List Container) (st : LoopState) :
    (runContainers cfg true st cs).already_announced
        = (st.already_announced || cs.any (isTargetMatch cfg)) ∧
    alertCount (runContainers cfg true st cs).msgs
        = alertCount st.msgs + (!st.already_announced && cs.any (isTargetMatch cfg)).toNat := by
  induction cs generalizing st with
  | nil => simp [runContainers]
  | cons c cs ih =>
    have hstep := stepContainer_channel_true cfg st c
    have h2 := ih (stepContainer cfg true st c)
    rw [runContainers, List.foldl_cons, ← runContainers]
    constructor
    · rw [h2.1, hstep.1, List.any_cons]
      cases st.already_announced <;> cases isTargetMatch cfg c <;> simp
    · rw [h2.2, hstep.1, hstep.2, List.any_cons]
      cases st.already_announced <;> cases isTargetMatch cfg c <;>
        cases cs.any (isTargetMatch cfg) <;> simp

theorem runContainers_digestCount (cfg : Cfg) (ch : Bool) (cs : List Container)
    (st : LoopState) :
    digestCount (runContainers cfg ch st cs).msgs = digestCount st.msgs := by
  induction cs generalizing st with
  | nil => rfl
  | cons c cs ih =>
    rw [runContainers, List.foldl_cons, ← runContainers]
    exact (ih _).trans (stepContainer_digestCount cfg ch st c)

theorem runContainers_msgs_ok (cfg : Cfg) (ch : Bool) (cs : List Container) (st : LoopState)
    (h : ∀ m ∈ st.msgs, (Msg.text m).length ≤ 2000) :
    ∀ m ∈ (runContainers cfg ch st cs).msgs, (Msg.text m).length ≤ 2000 := by
  induction cs generalizing st with
  | nil => exact h
  | cons c cs ih =>
    rw [runContainers, List.foldl_cons, ← runContainers]
    exact ih _ (stepContainer_msgs_ok cfg ch st c h)

/-! ### Helper lemmas about one scrape cycle -/

theorem cycle_page_eq (cfg : Cfg) (channel : Bool) (s : BotState) (cs : List Container) :
    check_ticket_cycle cfg channel s (.page cs) =
      (let st := runContainers cfg channel
        { event_summaries := [], msgs := [], already_announced := s.already_announced,
          found := false } cs
       if computedDigest cs = s.previous_event_summaries then
         ({ already_announced := st.already_announced,
            previous_event_summaries := s.previous_event_summaries,
            check_count := s.check_count + 1 }, st.msgs)
       else
         ({ already_announced := st.already_announced,
            previous_event_summaries := computedDigest cs,
            check_count := s.check_count + 1 },
          st.msgs ++
            if channel then [Msg.digest (pytrunc (digestText (computedDigest cs)) 2000)]
            else [])) := by
  have h := runContainers_summaries cfg channel cs
    { event_summaries := [], msgs := [], already_announced := s.already_announced,
      found := false }
  simp only [List.nil_append] at h
  simp only [check_ticket_cycle, computedDigest, h]

theorem cycle_page_check_count (cfg : Cfg) (channel : Bool) (s : BotState)
    (cs : List Container) :
    (check_ticket_cycle cfg channel s (.page cs)).1.check_count = s.check_count + 1 := by
  rw [cycle_page_eq]
  dsimp only
  split <;> rfl

theorem cycle_page_prev (cfg : Cfg) (channel : Bool) (s : BotState) (cs : List Container) :
    (check_ticket_cycle cfg channel s (.page cs)).1.previous_event_summaries
      = (if computedDigest cs = s.previous_event_summaries then s.previous_event_summaries
         else computedDigest cs) := by
  rw [cycle_page_eq]
  dsimp only
  split <;> rfl

theorem cycle_page_digestCount (cfg : Cfg) (channel : Bool) (s : BotState)
    (cs : List Container) :
    digestCount (check_ticket_cycle cfg channel s (.page cs)).2
      = (if computedDigest cs = s.previous_event_summaries then 0 else channel.toNat) := by
  have hd := runContainers_digestCount cfg channel cs
    { event_summaries := [], msgs := [], already_announced := s.already_announced,
      found := false }
  rw [cycle_page_eq]
  dsimp only
  split
  · exact hd
  · rw [digestCount_append, hd]
    cases channel <;> rfl

theorem cycle_page_alert_true (cfg : Cfg) (s : BotState) (cs : List Container) :
    (check_ticket_cycle cfg true s (.page cs)).1.already_announced
       = (s.already_announced || cs.any (isTargetMatch cfg)) ∧
    alertCount (check_ticket_cycle cfg true s (.page cs)).2
       = (!s.already_announced && cs.any (isTargetMatch cfg)).toNat := by
  have h := runContainers_channel_true cfg cs
    { event_summaries := [], msgs := [], already_announced := s.already_announced,
      found := false }
  rw [cycle_page_eq]
  dsimp only
  dsimp only at h
  split
  · refine ⟨h.1, ?_⟩
    rw [h.2, alertCount_nil, Nat.zero_add]
  · refine ⟨h.1, ?_⟩
    rw [alertCount_append, h.2, if_pos rfl, alertCount_digest, alertCount_nil]
    omega

theorem cycle_channel_false (cfg : Cfg) (s : BotState) (inp : CycleInput) :
    (check_ticket_cycle cfg false s inp).2 = [] ∧
    (check_ticket_cycle cfg false s inp).1.already_announced = s.already_announced := by
  cases inp with
  | closedHours => exact ⟨rfl, rfl⟩
  | fetchErr => exact ⟨rfl, rfl⟩
  | page cs =>
    have h := runContainers_channel_false cfg cs
      { event_summaries := [], msgs := [], already_announced := s.already_announced,
        found := false }
    dsimp only at h
    rw [cycle_page_eq]
    dsimp only
    split
    · exact ⟨h.1, h.2⟩
    · rw [if_neg (by simp), List.append_nil]
      exact ⟨h.1, h.2⟩

theorem cycle_announced_true (cfg : Cfg) (ch : Bool) (s : BotState) (inp : CycleInput)
    (h : s.already_announced = true) :
    (check_ticket_cycle cfg ch s inp).1.already_announced = true ∧
    alertCount (check_ticket_cycle cfg ch s inp).2 = 0 := by
  cases inp with
  | closedHours => exact ⟨h, rfl⟩
  | fetchErr => exact ⟨h, rfl⟩
  | page cs =>
    have h2 := runContainers_announced_true cfg ch cs
      { event_summaries := [], msgs := [], already_announced := s.already_announced,
        found := false } (by simpa using h)
    rw [cycle_page_eq]
    dsimp only
    dsimp only at h2
    split
    · refine ⟨h2.2, ?_⟩
      rw [h2.1]
      rfl
    · refine ⟨h2.2, ?_⟩
      rw [alertCount_append, h2.1]
      cases ch <;> rfl

theorem cycle_msgs_ok (cfg : Cfg) (ch : Bool) (s : BotState) (inp : CycleInput) :
    ∀ m ∈ (check_ticket_cycle cfg ch s inp).2, (Msg.text m).length ≤ 2000 := by
  cases inp with
  | closedHours => simp [check_ticket_cycle]
  | fetchErr => simp [check_ticket_cycle]
  | page cs =>
    have hok := runContainers_msgs_ok cfg ch cs
      { event_summaries := [], msgs := [], already_announced := s.already_announced,
        found := false } (by simp)
    rw [cycle_page_eq]
    dsimp only
    split
    · exact hok
    · intro m hm
      rcases List.mem_append.1 hm with h1 | h1
      · exact hok m h1
      · cases ch with
        | false => simp at h1
        | true =>
          rcases List.mem_singleton.1 h1 with rfl
          exact pytrunc_length_le _ _

theorem extractEntry_none (c : Container) (h : c.day_tag = none ∨ c.month_tag = none) :
    extractEntry c = none := by
  rcases hd : c.day_tag with _ | dt <;> rcases hm : c.month_tag with _ | mt <;>
    simp_all [extractEntry]

/-! ### Concrete data used by the witnesses -/

def cfg0 : Cfg := { target_day := "15", target_month := "march" }

def c0 : Container := { day_tag := some "15", month_tag := some " March", link_href := none }

def cX : Container := { day_tag := some "16", month_tag := some "april", link_href := some "/e/1" }

def cBad : Container := { day_tag := none, month_tag := some "april", link_href := none }

def sAnnounced : BotState :=
  { already_announced := true, previous_event_summaries := [], check_count := 0 }

/-! ### Claim theorems -/

/-- C1: once `already_announced` is `true`, every further sequence of
scrape cycles — whatever each cycle observes and whether or not the channel
resolves, and with no intervening reset — sends zero alert messages in
total (so in particular every cycle in which the target is found sends
none), and the flag remains `true`. -/
theorem c1_announced_absorbs_alerts (cfg : Cfg) (s : BotState)
    (h : s.already_announced = true) (steps : List (Bool × CycleInput)) :
    alertCount (runCycles cfg s steps).2 = 0 ∧
    (runCycles cfg s steps).1.already_announced = true := by
  induction steps generalizing s with
  | nil => exact ⟨rfl, h⟩
  | cons p rest ih =>
    obtain ⟨ch, inp⟩ := p
    have h1 := cycle_announced_true cfg ch s inp h
    have h2 := ih (check_ticket_cycle cfg ch s inp).1 h1.1
    simp only [runCycles]
    rw [alertCount_append, h1.2, h2.1]
    exact ⟨rfl, h2.2⟩

/-- C1 witness: from an announced state, two further cycles that both find
the target send zero alerts. -/
theorem c1_announced_absorbs_alerts_witness :
    sAnnounced.already_announced = true ∧
    alertCount (runCycles cfg0 sAnnounced
      [(true, .page [c0]), (true, .page [c0])]).2 = 0 :=
  ⟨by decide, (c1_announced_absorbs_alerts cfg0 sAnnounced (by decide)
    [(true, .page [c0]), (true, .page [c0])]).1⟩

/-- C2 counterexample: a cycle whose fetch raises a TransportError does not
leave the whole AnnouncementState unchanged — `check_count` is incremented,
because the increment happens before the `try` block. -/
theorem c2_counterexample :
    (check_ticket_cycle cfg0 true initState CycleInput.fetchErr).1.check_count ≠
      initState.check_count := by decide

/-- C2 amended: a cycle whose fetch raises a TransportError leaves
`already_announced` and `previous_event_summaries` unchanged and sends no
outbound message, while `check_count` — incremented before the fetch is
attempted — grows by exactly one. -/
theorem c2_fetch_error_cycle (cfg : Cfg) (channel : Bool) (s : BotState) :
    (check_ticket_cycle cfg channel s CycleInput.fetchErr).1.already_announced
        = s.already_announced ∧
    (check_ticket_cycle cfg channel s CycleInput.fetchErr).1.previous_event_summaries
        = s.previous_event_summaries ∧
    (check_ticket_cycle cfg channel s CycleInput.fetchErr).1.check_count
        = s.check_count + 1 ∧
    (check_ticket_cycle cfg channel s CycleInput.fetchErr).2 = [] :=
  ⟨rfl, rfl, rfl, rfl⟩

/-- C3: the digest comparison is sequence equality of the summary lines:
with the channel resolving, a successful cycle whose computed digest
differs from the stored one sends exactly one digest message and replaces
`previous_event_summaries` with the new digest, while a cycle whose digest
equals the stored one sends zero digest messages and leaves it unchanged;
the computed digest is never the empty sequence and
`previous_event_summaries` starts empty, so the first computed digest
always counts as changed. -/
theorem c3_digest_change (cfg : Cfg) (s : BotState) (cs : List Container) :
    computedDigest cs ≠ [] ∧
    initState.previous_event_summaries = [] ∧
    (computedDigest cs ≠ s.previous_event_summaries →
       digestCount (check_ticket_cycle cfg true s (.page cs)).2 = 1 ∧
       (check_ticket_cycle cfg true s (.page cs)).1.previous_event_summaries
         = computedDigest cs) ∧
    (computedDigest cs = s.previous_event_summaries →
       digestCount (check_ticket_cycle cfg true s (.page cs)).2 = 0 ∧
       (check_ticket_cycle cfg true s (.page cs)).1.previous_event_summaries
         = s.previous_event_summaries) := by
  refine ⟨?_, rfl, ?_, ?_⟩
  · simp only [computedDigest]
    split
    · simp [noSessions]
    · simp_all
  · intro h
    constructor
    · rw [cycle_page_digestCount, if_neg h]
      rfl
    · rw [cycle_page_prev, if_neg h]
  · intro h
    constructor
    · rw [cycle_page_digestCount, if_pos h]
    · rw [cycle_page_prev, if_pos h]

/-- C3 witness: from the initial state, a page with one entry differs from
the empty stored digest and produces exactly one digest message. -/
theorem c3_digest_change_witness :
    computedDigest [c0] ≠ initState.previous_event_summaries ∧
    digestCount (check_ticket_cycle cfg0 true initState (.page [c0])).2 = 1 :=
  ⟨by decide, ((c3_digest_change cfg0 initState [c0]).2.2.1 (by decide)).1⟩

/-- C4: the operating-hours gate is open for every hour in [8, 24) and
closed for every hour in [0, 8); in particular hour 0 is closed and hour
23 is open. -/
theorem c4_operating_hours (h : Nat) :
    (8 ≤ h ∧ h < 24 → is_within_operating_hours h = true) ∧
    (h < 8 → is_within_operating_hours h = false) ∧
    is_within_operating_hours 0 = false ∧
    is_within_operating_hours 23 = true := by
  refine ⟨?_, ?_, by decide, by decide⟩
  · rintro ⟨h1, h2⟩
    simp only [is_within_operating_hours, Bool.and_eq_true, decide_eq_true_eq]
    exact ⟨h1, h2⟩
  · intro h1
    have h2 : ¬ 8 ≤ h := by omega
    simp only [is_within_operating_hours, decide_eq_false h2, Bool.false_and]

/-- C4 witness: hour 9 is inside the window and the gate is open there. -/
theorem c4_operating_hours_witness :
    (8 ≤ 9 ∧ 9 < 24) ∧ is_within_operating_hours 9 = true :=
  ⟨by decide, (c4_operating_hours 9).1 (by decide)⟩

/-- C5: a reset always leaves the state `NOT_ANNOUNCED`; a reset issued
while already not announced changes nothing at all; and after a reset, a
cycle that finds the target (with the channel resolving) sends exactly one
new alert. -/
theorem c5_reset (cfg : Cfg) (s : BotState) (cs : List Container) :
    (reset s).already_announced = false ∧
    (s.already_announced = false → reset s = s) ∧
    (cs.any (isTargetMatch cfg) = true →
       alertCount (check_ticket_cycle cfg true (reset s) (.page cs)).2 = 1) := by
  refine ⟨rfl, ?_, ?_⟩
  · intro h
    cases s
    simp only [reset]
    rw [← h]
  · intro hm
    have h2 := (cycle_page_alert_true cfg (reset s) cs).2
    rw [h2]
    have hra : (reset s).already_announced = false := rfl
    rw [hra, hm]
    rfl

/-- C5 witness: resetting an announced state and then finding the target
sends exactly one alert. -/
theorem c5_reset_witness :
    [c0].any (isTargetMatch cfg0) = true ∧
    alertCount (check_ticket_cycle cfg0 true (reset sAnnounced) (.page [c0])).2 = 1 :=
  ⟨by decide, (c5_reset cfg0 sAnnounced [c0]).2.2 (by decide)⟩

/-- C6: the event extractor processes containers in document order: a
container missing its day label or its month label contributes nothing
wherever it occurs; a container with both labels contributes exactly one
entry with lowercased stripped day and month text and, when no enclosing
link exists, the sentinel URL; extraction distributes over concatenation
(order preserved, nothing deduplicated); and the summary lines accumulated
by the scrape loop are exactly the extracted entries rendered in order. -/
theorem c6_event_extractor (cfg : Cfg) (channel announced : Bool) (c : Container)
    (cs cs2 : List Container) :
    (c.day_tag = none ∨ c.month_tag = none →
       extractEntries (cs ++ c :: cs2) = extractEntries (cs ++ cs2)) ∧
    (∀ dt mt, c.day_tag = some dt → c.month_tag = some mt →
       extractEntries (c :: cs) =
         { day := pylower (pystrip dt), month := pylower (pystrip mt),
           url := containerUrl c.link_href } :: extractEntries cs) ∧
    (c.link_href = none → containerUrl c.link_href = "No link") ∧
    extractEntries (cs ++ cs2) = extractEntries cs ++ extractEntries cs2 ∧
    (runContainers cfg channel
        { event_summaries := [], msgs := [], already_announced := announced, found := false }
        cs).event_summaries = (extractEntries cs).map summaryOfEntry := by
  refine ⟨?_, ?_, ?_, ?_, ?_⟩
  · intro h
    simp [extractEntries, List.filterMap_append, List.filterMap_cons, extractEntry_none c h]
  · intro dt mt hd hm
    simp [extractEntries, List.filterMap_cons, extractEntry, hd, hm]
  · intro h
    rw [h]
    rfl
  · simp [extractEntries, List.filterMap_append]
  · have h := runContainers_summaries cfg channel cs
      { event_summaries := [], msgs := [], already_announced := announced, found := false }
    simpa using h

/-- C6 witness: a well-formed container followed by one missing its day
label extracts to exactly one entry, with stripped lowercased text and the
link URL. -/
theorem c6_event_extractor_witness :
    extractEntries [cX, cBad] =
      [{ day := "16", month := "april", url := "https://ticketline.sapo.pt/e/1" }] := by
  have h1 := (c6_event_extractor cfg0 true false cBad [cX] []).1 (Or.inl (by decide))
  have h2 := (c6_event_extractor cfg0 true false cX [] []).2.1 "16" "april"
    (by decide) (by decide)
  calc extractEntries [cX, cBad]
      = extractEntries ([cX] ++ cBad :: []) := rfl
    _ = extractEntries ([cX] ++ []) := h1
    _ = { day := pylower (pystrip "16"), month := pylower (pystrip "april"),
          url := containerUrl cX.link_href } :: extractEntries [] := h2
    _ = [{ day := "16", month := "april", url := "https://ticketline.sapo.pt/e/1" }] := by
        decide

/-- C7: the fetched body is gzip-decompressed and decoded when its leading
bytes are the gzip magic number, and otherwise decoded as the transport's
declared-encoding text. -/
theorem c7_gzip_decode (g : List Nat → String) (r : HttpResponse) :
    (gzipMagic.isPrefixOf r.content = true → decodeBody g r = g r.content) ∧
    (gzipMagic.isPrefixOf r.content = false → decodeBody g r = r.text) := by
  constructor <;> intro h <;> simp [decodeBody, h]

/-- C7 witness: a body starting with the gzip magic bytes goes through the
decompressor. -/
theorem c7_gzip_decode_witness :
    gzipMagic.isPrefixOf [0x1f, 0x8b, 0x08] = true ∧
    decodeBody (fun _ => "unzipped")
      { content := [0x1f, 0x8b, 0x08], text := "raw" } = "unzipped" :=
  ⟨by decide, (c7_gzip_decode (fun _ => "unzipped")
    { content := [0x1f, 0x8b, 0x08], text := "raw" }).1 (by decide)⟩

/-- C8: every outbound message of a cycle is at most 2000 characters long,
and when the destination channel cannot be resolved nothing is sent at
all. -/
theorem c8_notifier (cfg : Cfg) (channel : Bool) (s : BotState) (inp : CycleInput) :
    (∀ m ∈ (check_ticket_cycle cfg channel s inp).2, (Msg.text m).length ≤ 2000) ∧
    (check_ticket_cycle cfg false s inp).2 = [] :=
  ⟨cycle_msgs_ok cfg channel s inp, (cycle_channel_false cfg s inp).1⟩

/-- C8 witness: the concrete alert sent on a first find is within the
length bound. -/
theorem c8_notifier_witness :
    Msg.alert (pytrunc (alertText cfg0 "No link") 2000)
        ∈ (check_ticket_cycle cfg0 true initState (.page [c0])).2 ∧
    (Msg.text (Msg.alert (pytrunc (alertText cfg0 "No link") 2000))).length ≤ 2000 :=
  ⟨by decide, (c8_notifier cfg0 true initState (.page [c0])).1 _ (by decide)⟩

/-- C9: `already_announced` becomes `true` only in a cycle that actually
sends an alert: a cycle with an unresolved channel never changes the flag;
a cycle that flips the flag from `false` to `true` sent exactly one alert;
and after a failed-channel cycle the alert is re-attempted — the next
found cycle with a resolved channel sends exactly one alert. -/
theorem c9_flag_only_after_send (cfg : Cfg) (channel : Bool) (s : BotState)
    (inp : CycleInput) (cs : List Container) :
    (check_ticket_cycle cfg false s inp).1.already_announced = s.already_announced ∧
    (s.already_announced = false →
       (check_ticket_cycle cfg channel s inp).1.already_announced = true →
       alertCount (check_ticket_cycle cfg channel s inp).2 = 1) ∧
    (s.already_announced = false → cs.any (isTargetMatch cfg) = true →
       alertCount (check_ticket_cycle cfg true
           ((check_ticket_cycle cfg false s inp).1) (.page cs)).2 = 1) := by
  refine ⟨(cycle_channel_false cfg s inp).2, ?_, ?_⟩
  · intro h0 h1
    cases channel with
    | false =>
      rw [(cycle_channel_false cfg s inp).2] at h1
      rw [h0] at h1
      exact absurd h1 (by decide)
    | true =>
      cases inp with
      | closedHours =>
        rw [show (check_ticket_cycle cfg true s .closedHours).1 = s from rfl, h0] at h1
        exact absurd h1 (by decide)
      | fetchErr =>
        have : (check_ticket_cycle cfg true s .fetchErr).1.already_announced
            = s.already_announced := rfl
        rw [this, h0] at h1
        exact absurd h1 (by decide)
      | page cs2 =>
        have ha := (cycle_page_alert_true cfg s cs2).1
        have hc := (cycle_page_alert_true cfg s cs2).2
        rw [ha, h0, Bool.false_or] at h1
        rw [hc, h0, h1]
        rfl
  · intro h0 hm
    have hs : ((check_ticket_cycle cfg false s inp).1).already_announced = false := by
      rw [(cycle_channel_false cfg s inp).2, h0]
    have hc := (cycle_page_alert_true cfg ((check_ticket_cycle cfg false s inp).1) cs).2
    rw [hc, hs, hm]
    rfl

/-- C9 witness: a found cycle with an unresolved channel leaves the flag
`false`, and the immediately following found cycle with the channel
resolved sends exactly one alert. -/
theorem c9_flag_only_after_send_witness :
    (initState.already_announced = false ∧ [c0].any (isTargetMatch cfg0) = true) ∧
    alertCount (check_ticket_cycle cfg0 true
        ((check_ticket_cycle cfg0 false initState (.page [c0])).1) (.page [c0])).2 = 1 :=
  ⟨⟨by decide, by decide⟩,
    (c9_flag_only_after_send cfg0 true initState (.page [c0]) [c0]).2.2
      (by decide) (by decide)⟩

/-- C10: when the computed digest differs from the stored one but the
channel cannot be resolved, no digest message is sent yet
`previous_event_summaries` is still replaced with the new digest, so a
later cycle whose digest equals the dropped one sends zero digest messages
even with the channel resolved. -/
theorem c10_digest_dropped_not_resent (cfg : Cfg) (s : BotState) (cs cs2 : List Container)
    (h : computedDigest cs ≠ s.previous_event_summaries) :
    digestCount (check_ticket_cycle cfg false s (.page cs)).2 = 0 ∧
    (check_ticket_cycle cfg false s (.page cs)).1.previous_event_summaries
        = computedDigest cs ∧
    (computedDigest cs2 = computedDigest cs →
       digestCount (check_ticket_cycle cfg true
           ((check_ticket_cycle cfg false s (.page cs)).1) (.page cs2)).2 = 0) := by
  refine ⟨?_, ?_, ?_⟩
  · rw [cycle_page_digestCount, if_neg h]
    rfl
  · rw [cycle_page_prev, if_neg h]
  · intro h2
    have hp : (check_ticket_cycle cfg false s (.page cs)).1.previous_event_summaries
        = computedDigest cs := by
      rw [cycle_page_prev, if_neg h]
    rw [cycle_page_digestCount, hp, if_pos h2]

/-- C10 witness: a changed digest on an unresolved channel is stored, and
re-seeing the same page afterwards sends no digest message. -/
theorem c10_digest_dropped_not_resent_witness :
    computedDigest [c0] ≠ initState.previous_event_summaries ∧
    digestCount (check_ticket_cycle cfg0 true
        ((check_ticket_cycle cfg0 false initState (.page [c0])).1) (.page [c0])).2 = 0 :=
  ⟨by decide,
    (c10_digest_dropped_not_resent cfg0 initState [c0] [c0] (by decide)).2.2 (by decide)⟩

end TicketBot
